import Mathlib

/-!
Verification development for the DGSM game-server supervision core.

Shallow embedding of the process-supervision engine:
`runtime_status.py` (operation status tracker), `server_manager.py`
(stop/monitor/recovery), `steam_integration.py` (single-flight update),
and `pidcache.py` (PID cache).

Conventions of the embedding:
* wall-clock times (`time.time()` in Python) are passed explicitly as a
  `Nat` number of seconds; `failed_at = 0` models the Python sentinel `0.0`
  (unset).  Python computes `age = now - failed_at` as a real subtraction;
  with `Nat` truncated subtraction every branch on `age <= TTL` decides the
  same way (a negative Python age and a truncated 0 are both `<= TTL`), so
  the branch structure is preserved exactly.
* Python `int` counters are `Int` and the source's `max(0, x - 1)` is kept
  literally.
* the process-wide dict `_STATUS` is an extensional map `String → Option OpState`.
* filesystem / OS facts (which PIDs are alive, what a re-scan of the install
  root finds, what the external tool returned) are oracle fields of explicit
  world structures; the control flow around them is translated from the source.
-/

/-- `FAILED_TTL_SECONDS = 900` from `runtime_status.py`. -/
def FAILED_TTL_SECONDS : Nat := 900

/-- The whitespace characters Python's `str.strip()` removes by default
(ASCII subset). -/
def isPySpace (c : Char) : Bool :=
  c = ' ' || c = '\t' || c = '\n' || c = '\r' || c = '\x0b' || c = '\x0c'

/-- Python `str.strip()`: drop leading and trailing whitespace. -/
def pyStrip (s : String) : String :=
  ⟨((s.data.dropWhile isPySpace).reverse.dropWhile isPySpace).reverse⟩

/-- One per-server record of the `_STATUS` dict in `runtime_status.py`:
`{"busy_count": 0, "label": "", "failed_at": 0.0, "failed_msg": ""}`. -/
structure OpState where
  busy_count : Int
  label : String
  failed_at : Nat
  failed_msg : String
deriving Repr, DecidableEq

/-- The fresh record `setdefault` inserts. -/
def OpState.init : OpState := ⟨0, "", 0, ""⟩

/-- The process-wide `_STATUS : Dict[str, dict]` table. -/
def StatusTable : Type := String → Option OpState

/-- The empty `_STATUS` dict. -/
def statusEmpty : StatusTable := fun _ => none

/-- Dict assignment `_STATUS[name] = st` (also the effect of `setdefault`
followed by in-place mutation of the entry). -/
def statusSet (tbl : StatusTable) (name : String) (st : OpState) : StatusTable :=
  fun k => if k = name then some st else tbl k

/-- `begin_operation(server_name, label="")`: `setdefault` the record, then
`busy_count += 1`, and `label` is overwritten only when truthy (non-empty). -/
def begin_operation (server_name : String) (label : String) (tbl : StatusTable) :
    StatusTable :=
  let state := (tbl server_name).getD OpState.init
  let state := { state with busy_count := state.busy_count + 1 }
  let state := if label ≠ "" then { state with label := label } else state
  statusSet tbl server_name state

/-- `end_operation_success(server_name)`: no-op when the record is absent;
otherwise `busy_count = max(0, busy_count - 1)` and, on reaching 0, clear
`failed_at`, `failed_msg` and `label`. -/
def end_operation_success (server_name : String) (tbl : StatusTable) : StatusTable :=
  match tbl server_name with
  | none => tbl
  | some state =>
    let b := max 0 (state.busy_count - 1)
    let state := { state with busy_count := b }
    let state :=
      if b = 0 then { state with failed_at := 0, failed_msg := "", label := "" }
      else state
    statusSet tbl server_name state

/-- `end_operation_failed(server_name, message="")` at wall-clock `now`:
`setdefault` the record, `busy_count = max(0, busy_count - 1)`,
`failed_at = time.time()`, `failed_msg = str(message or "").strip()`
(`message or ""` is the identity here since `pyStrip "" = ""`), and clear
`label` when the count reached 0. -/
def end_operation_failed (server_name : String) (message : String) (now : Nat)
    (tbl : StatusTable) : StatusTable :=
  let state := (tbl server_name).getD OpState.init
  let b := max 0 (state.busy_count - 1)
  let state := { state with busy_count := b, failed_at := now,
                            failed_msg := pyStrip message }
  let state := if b = 0 then { state with label := "" } else state
  statusSet tbl server_name state

/-- `get_operation_status(server_name)` at wall-clock `now`.  Returns the
`(state, detail)` pair and the possibly-mutated table (the source clears an
expired failure in place).  `state.get("label") or None` /
`state.get("failed_msg") or None` turn the empty string into `none`. -/
def get_operation_status (server_name : String) (now : Nat) (tbl : StatusTable) :
    (Option String × Option String) × StatusTable :=
  match tbl server_name with
  | none => ((none, none), tbl)
  | some state =>
    if state.busy_count > 0 then
      ((some "busy", if state.label = "" then none else some state.label), tbl)
    else
      if state.failed_at > 0 then
        let age := now - state.failed_at
        if age ≤ FAILED_TTL_SECONDS then
          ((some "failed",
            if state.failed_msg = "" then none else some state.failed_msg), tbl)
        else
          ((none, none),
           statusSet tbl server_name { state with failed_at := 0, failed_msg := "" })
      else ((none, none), tbl)

/-- `clear_server_status(server_name)`: `_STATUS.pop(server_name, None)`. -/
def clear_server_status (server_name : String) (tbl : StatusTable) : StatusTable :=
  fun k => if k = server_name then none else tbl k

/-!  ## Path containment (`server_manager.py`)

`_is_within_path` normalizes both paths with `os.path.abspath`/`normcase`
and then checks `os.path.commonpath([base, cand]) == base`.  The embedding
takes already-normalized absolute POSIX paths (on POSIX `normcase` is the
identity) and mirrors `commonpath`'s component arithmetic: split on the
separator, ignore empty and `.` components, take the longest common
component run. -/

/-- Split a character list at every `/` (Python `s.split("/")`). -/
def splitOnSlash : List Char → List (List Char)
  | [] => [[]]
  | c :: cs =>
    let r := splitOnSlash cs
    if c = '/' then [] :: r
    else
      match r with
      | h :: t => (c :: h) :: t
      | [] => [[c]]

/-- The components `os.path.commonpath` compares: split on `/`, dropping
empty and `.` entries. -/
def pathComps (s : String) : List String :=
  ((splitOnSlash s.data).map (fun cs => String.mk cs)).filter
    (fun c => c != "" && c != ".")

/-- Longest common leading run of two component lists
(`os.path.commonpath` on two paths). -/
def commonComps : List String → List String → List String
  | x :: xs, y :: ys => if x = y then x :: commonComps xs ys else []
  | _, _ => []

/-- `_is_within_path(base_dir, candidate)`:
`os.path.commonpath([base_abs, cand_abs]) == base_abs`. -/
def is_within_path (base_dir candidate : String) : Bool :=
  commonComps (pathComps base_dir) (pathComps candidate) == pathComps base_dir

/-- What `psutil.process_iter(attrs=["pid", "exe", "cwd"])` reports for one
process; `exe`/`cwd` are `""` when the attribute is `None`. -/
structure ProcInfo where
  pid : Nat
  exe : String
  cwd : String
deriving Repr, DecidableEq

/-- The per-process test of `_list_server_related_processes`: append when
`exe` is truthy and within the server path (then `continue`), else when
`cwd` is truthy and within the server path. -/
def relatedToServer (server_path : String) (p : ProcInfo) : Bool :=
  (p.exe != "" && is_within_path server_path p.exe) ||
  (p.cwd != "" && is_within_path server_path p.cwd)

/-- `_list_server_related_processes(server_path)` over a process snapshot:
collect the related PIDs, then drop duplicate PIDs
(`by_pid = {p.pid: p for p in related}`). -/
def list_server_related_processes (server_path : String) (procs : List ProcInfo) :
    List Nat :=
  ((procs.filter (relatedToServer server_path)).map (fun p => p.pid)).dedup

/-!  ## `stop_server` (`server_manager.py`)

The OS-dependent kill sequence (CTRL_BREAK / terminate / taskkill / pkill)
only changes the world; what the function *decides* depends on the oracle
fields below, which record what the OS reported at each observation point
of the source. -/

/-- The observations `stop_server(server_name)` makes. -/
structure StopWorld where
  /-- `SERVER_PATHS.get(server_name)` -/
  base : Option String
  /-- `server_processes.get(server_name)` — the tracked main process's PID -/
  tracked : Option Nat
  /-- whether `psutil.Process(proc.pid)` (the refresh) succeeds; `false`
  models `psutil.NoSuchProcess`, after which `proc = None` -/
  trackedRefreshOk : Bool
  /-- `_list_server_related_processes(base)` before the kill phase -/
  relatedBefore : List Nat
  /-- `some e` when the kill/verification phase raises an exception `e`
  (the `except Exception as e` arm) -/
  killError : Option String
  /-- the re-scan `_list_server_related_processes(base)` after the kills -/
  survivors : List Nat
  /-- `proc.is_running()` at the verification step -/
  trackedAliveAfter : Bool
deriving Repr, DecidableEq

/-- The outcome of `stop_server`: return value, `fail_reason` handed to
`end_operation_failed`, and whether the success-path effects
(`server_processes.pop(server_name)`, `save_pids(...)`) ran. -/
structure StopResult where
  ok : Bool
  fail_reason : String
  entryRemoved : Bool
  pidCacheSaved : Bool
deriving Repr, DecidableEq

/-- The survivor list of the verification step: the re-scan result, plus the
tracked process when it still exists and `is_running()`. -/
def stopStill (w : StopWorld) : List Nat :=
  w.survivors ++
    (match (if w.trackedRefreshOk then w.tracked else none) with
     | some pid => if w.trackedAliveAfter then [pid] else []
     | none => [])

/-- `stop_server(server_name)` (decision structure of `server_manager.py`
lines 213–342).  Branches in source order: missing path; nothing tracked
and nothing discovered; exception during the kill phase; survivors found at
verification; success. -/
def stop_server (w : StopWorld) : StopResult :=
  match w.base with
  | none => ⟨false, "path not found", false, false⟩
  | some _ =>
    if w.tracked = none ∧ w.relatedBefore = [] then
      ⟨false, "keine Prozesse gefunden", false, false⟩
    else
      match w.killError with
      | some e => ⟨false, e, false, false⟩
      | none =>
        if stopStill w ≠ [] then
          ⟨false, toString (stopStill w).length ++ " Prozesse übrig", false, false⟩
        else
          ⟨true, "", true, true⟩

/-!  ## Crash & Schedule Monitor (`monitor_servers` in `server_manager.py`) -/

/-- The crash-watch body for one tracked server: if its process
`is_running()` nothing happens; otherwise the entry is popped and `start`
is invoked when `cfg.get("auto_restart", True)` holds — the flag defaults
to `True` when the key is absent.  Returns
`(entry removed, start invoked)`. -/
def crash_watch_step (tracked_is_running : Bool) (auto_restart_cfg : Option Bool) :
    Bool × Bool :=
  if tracked_is_running then (false, false)
  else (true, auto_restart_cfg.getD true)

/-- The scheduled-maintenance body of one `monitor_servers` tick for a
single server.  `now` is `datetime.now().strftime("%H:%M")`; `stop_time` is
`cfg.get("stop_time")` with `""` for an absent/falsy value
(`if not st: continue`); `handled` is membership in
`daily_stopped_servers`.  Returns `(sequence fired, new membership)`: the
stop/update/restart sequence fires when `now == st` and the server is not
yet in the set (which it then enters), and a `00:00` tick discards the
server from the set afterwards. -/
def monitor_daily_tick (now stop_time : String) (handled : Bool) : Bool × Bool :=
  if stop_time = "" then (false, handled)
  else
    let fired := now == stop_time && !handled
    let handled1 := if fired then true else handled
    let handled2 := if now == "00:00" then false else handled1
    (fired, handled2)

/-- Iterate `monitor_daily_tick` over a list of tick times, counting how
often the daily sequence fired. -/
def monitor_daily_run (stop_time : String) (ticks : List String) (handled : Bool) :
    Nat × Bool :=
  match ticks with
  | [] => (0, handled)
  | t :: ts =>
    let r := monitor_daily_tick t stop_time handled
    let rest := monitor_daily_run stop_time ts r.2
    ((if r.1 then 1 else 0) + rest.1, rest.2)

/-!  ## PID cache (`pidcache.py`) and Recovery Bootstrap
(`recover_running_servers` in `server_manager.py`)

Python dicts keyed by server name are association lists with unique keys. -/

/-- `save_pids(processes)`:
`data = {name: proc.pid for name, proc in processes.items() if proc.is_running()}`,
then written to the cache file.  `is_running_now` is the liveness oracle at
write time. -/
def save_pids (is_running_now : Nat → Bool) (processes : List (String × Nat)) :
    List (String × Nat) :=
  processes.filter (fun e => is_running_now e.2)

/-- What `psutil.Process(pid)` + `proc.is_running()` yields inside
`recover_running_servers`. -/
inductive ProcProbe
  /-- process handle obtained and `is_running()` is `True` -/
  | running
  /-- handle obtained but `is_running()` is `False` -/
  | notRunning
  /-- `psutil.NoSuchProcess` or `psutil.AccessDenied` raised, carrying the
  exception's display text -/
  | raised (excMsg : String)
deriving Repr, DecidableEq

/-- One `write_action_log(action, server, status, detail)` record. -/
structure LogEntry where
  action : String
  server : String
  status : String
  detail : String
deriving Repr, DecidableEq

/-- Association-list lookup, i.e. Python `tbl.get(k)` for a unique-key dict. -/
def dictFind (tbl : List (String × Nat)) (k : String) : Option Nat :=
  (tbl.find? (fun e => e.1 == k)).map (fun e => e.2)

/-- Python `tbl[k] = v`: replace the entry in place when the key exists,
else append. -/
def dictAssign (tbl : List (String × Nat)) (k : String) (v : Nat) :
    List (String × Nat) :=
  if (tbl.find? (fun e => e.1 == k)).isSome then
    tbl.map (fun e => if e.1 == k then (k, v) else e)
  else tbl ++ [(k, v)]

/-- The body of `recover_running_servers`'s loop for one cached
`(name, pid)` entry: adopt into `server_processes` and log a success when
the process is alive and the name is declared in `SERVER_PATHS`; otherwise
log a failure (invalid process, or exception text). -/
def recoverStep (probe : Nat → ProcProbe) (declared : List String)
    (acc : List (String × Nat) × List LogEntry) (e : String × Nat) :
    List (String × Nat) × List LogEntry :=
  match probe e.2 with
  | .running =>
    if declared.contains e.1 then
      (dictAssign acc.1 e.1 e.2,
       acc.2 ++ [⟨"recovery", e.1, "success", "PID " ++ toString e.2⟩])
    else
      (acc.1,
       acc.2 ++ [⟨"recovery", e.1, "failed", "Ungültiger Prozess " ++ toString e.2⟩])
  | .notRunning =>
      (acc.1,
       acc.2 ++ [⟨"recovery", e.1, "failed", "Ungültiger Prozess " ++ toString e.2⟩])
  | .raised m =>
      (acc.1,
       acc.2 ++ [⟨"recovery", e.1, "failed", "Prozess nicht übernommen: " ++ m⟩])

/-- `recover_running_servers()`: fold the loop body over the cached
entries, starting from the current `server_processes` table and an empty
log. -/
def recover_running_servers (probe : Nat → ProcProbe) (declared : List String)
    (cache : List (String × Nat)) (table : List (String × Nat)) :
    List (String × Nat) × List LogEntry :=
  cache.foldl (recoverStep probe declared) (table, [])

/-- The adoption condition of `recover_running_servers`:
`proc.is_running() and name in SERVER_PATHS`. -/
def adoptsEntry (probe : Nat → ProcProbe) (declared : List String)
    (e : String × Nat) : Bool :=
  (probe e.2 == ProcProbe.running) && declared.contains e.1

/-- The log record `recover_running_servers` writes for one cached entry. -/
def recoveryLog (probe : Nat → ProcProbe) (declared : List String)
    (e : String × Nat) : LogEntry :=
  match probe e.2 with
  | .running =>
    if declared.contains e.1 then
      ⟨"recovery", e.1, "success", "PID " ++ toString e.2⟩
    else
      ⟨"recovery", e.1, "failed", "Ungültiger Prozess " ++ toString e.2⟩
  | .notRunning =>
      ⟨"recovery", e.1, "failed", "Ungültiger Prozess " ++ toString e.2⟩
  | .raised m =>
      ⟨"recovery", e.1, "failed", "Prozess nicht übernommen: " ++ m⟩

/-!  ## Update Engine (`run_update` in `steam_integration.py`)

The external SteamCMD child process, the filesystem and the wall clock are
oracles; every decision the source takes on their answers is translated.
The `try/except Exception` wrapper and the status-tracker bracketing
(`begin_operation` / `end_operation_*` in `finally`) surround this body in
the source and are not part of the decision structure modelled here. -/

/-- `DEFAULT_TIMEOUT = int(os.getenv("STEAMCMD_TIMEOUT", "7200"))` with the
environment variable unset. -/
def DEFAULT_TIMEOUT : Nat := 7200

/-- Python `needle in hay` on strings. -/
def strContains (hay needle : String) : Bool :=
  hay.data.tails.any (fun t => needle.data.isPrefixOf t)

/-- Python `s.lower()` (ASCII). -/
def pyLower (s : String) : String := ⟨s.data.map Char.toLower⟩

/-- Python `s[:n]`. -/
def pyTake (n : Nat) (s : String) : String := ⟨s.data.take n⟩

/-- `_output_has_success_marker(output)`. -/
def output_has_success_marker (output : String) : Bool :=
  let low := pyLower output
  strContains low "success! app '" && strContains low "fully installed"

/-- `_is_known_fatal_update_state(output)`. -/
def is_known_fatal_update_state (output : String) : Bool :=
  let low := pyLower output
  if strContains low "state is 0x606" then true
  else strContains low "error! app '" && strContains low "after update job"

/-- The output-substring → human-readable-reason table of `run_update`,
in source (dict) order. -/
def steamcmdErrorMappings : List (String × String) :=
  [("No subscription", "Account besitzt keine Lizenz"),
   ("Steam Guard", "2FA benötigt"),
   ("Invalid Password", "Ungültige Anmeldedaten"),
   ("Not logged in", "Anmeldung fehlgeschlagen"),
   ("0x202", "Verbindungsproblem"),
   ("App not released", "App nicht verfügbar"),
   ("Invalid platform", "Falsche Plattform"),
   ("missing dependency", "Fehlende Abhängigkeiten"),
   ("Access Denied", "Zugriffsrechte problem"),
   ("Disk write failure", "Speicherplatzproblem")]

/-- The `error_msg` + truncated-output failure string of `run_update`
(`for k, v in mappings.items(): if k in output: ... break`). -/
def steamcmdMappedError (rc : Int) (output : String) : String :=
  let base := "Fehlercode: " ++ toString rc
  let msg :=
    match steamcmdErrorMappings.find? (fun kv => strContains output kv.1) with
    | some kv => kv.2 ++ " | " ++ base
    | none => base
  msg ++ "\nAusgabe: " ++ pyTake 1000 output

/-- What the external SteamCMD invocation produced. -/
inductive ToolOutcome
  /-- `asyncio.wait_for(...)` raised `TimeoutError` -/
  | timedOut
  /-- the child finished with this return code and combined
  stdout+stderr text -/
  | finished (returncode : Int) (output : String)
deriving Repr, DecidableEq

/-- The observations `run_update(server_name)` makes, in source order. -/
structure UpdateWorld where
  /-- `_UPDATE_LOCKS[server_name].locked()` at entry, i.e. whether another
  update for this server is in flight at that instant -/
  lock_held : Bool
  /-- `get_config_value(server_name, "app_id")` -/
  app_id : Option String
  /-- `_resolve_steamcmd()` (first call) -/
  steamcmd : Option String
  /-- success of `ensure_steamcmd_available()` -/
  ensure_ok : Bool
  /-- its message on failure -/
  ensure_msg : String
  /-- `_resolve_steamcmd()` after the auto-download -/
  steamcmd_retry : Option String
  /-- outcome of the external tool invocation -/
  tool : ToolOutcome
  /-- `_install_looks_good(server_name, install_dir)` -/
  install_looks_good : Bool
  /-- `f"{duration:.2f}"` for the success messages -/
  duration_str : String
deriving Repr, DecidableEq

/-- The SteamCMD resolution prologue of `run_update`: first
`_resolve_steamcmd()`, then on failure `ensure_steamcmd_available()`
followed by a second `_resolve_steamcmd()`. -/
def resolvedSteamcmd (w : UpdateWorld) : Except String String :=
  match w.steamcmd with
  | some p => Except.ok p
  | none =>
    if !w.ensure_ok then
      Except.error ("SteamCMD nicht gefunden (" ++ w.ensure_msg ++ ")")
    else
      match w.steamcmd_retry with
      | some p => Except.ok p
      | none => Except.error "SteamCMD nicht gefunden (nach Auto-Download)"

/-- `run_update(server_name)` (decision structure of `steam_integration.py`
lines 252–371): the `(ok, message)` return value paired with the number of
external tool invocations the call performed.  The leading
`if lock.locked(): return False, "Update läuft bereits"` is the
single-flight reject; every later branch sits inside `async with lock`. -/
def run_update (w : UpdateWorld) : (Bool × String) × Nat :=
  if w.lock_held then ((false, "Update läuft bereits"), 0)
  else
    match w.app_id with
    | none => ((false, "Keine App-ID konfiguriert"), 0)
    | some _ =>
      match resolvedSteamcmd w with
      | Except.error m => ((false, m), 0)
      | Except.ok _ =>
        match w.tool with
        | ToolOutcome.timedOut =>
          ((false, "Timeout nach " ++ toString (DEFAULT_TIMEOUT / 60) ++
            " Minuten (SteamCMD beendet)"), 1)
        | ToolOutcome.finished rc output =>
          if rc ≠ 0 then
            if is_known_fatal_update_state output then
              ((false, "SteamCMD meldet blockierten/parallelen Update-Job " ++
                "(z. B. state 0x606). Bitte später erneut versuchen."), 1)
            else if w.install_looks_good && output_has_success_marker output then
              ((true, "Installation offenbar ok (Exit " ++ toString rc ++ ")."), 1)
            else
              ((false, steamcmdMappedError rc output), 1)
          else
            ((true, "Erfolgreich in " ++ w.duration_str ++ "s installiert"), 1)

/-!  # Helper lemmas -/

/-- A server already in the handled-today set neither fires nor leaves the
set over ticks that never sample the `00:00` minute. -/
theorem monitor_daily_run_handled (st : String) :
    ∀ (ticks : List String), "00:00" ∉ ticks →
      monitor_daily_run st ticks true = (0, true) := by
  intro ticks
  induction ticks with
  | nil => intro _; rfl
  | cons t ts ih =>
    intro hmem
    have hts : "00:00" ∉ ts := fun hx => hmem (List.mem_cons_of_mem _ hx)
    have ht : t ≠ "00:00" := fun hx => hmem (hx ▸ List.mem_cons_self _ _)
    by_cases hst : st = ""
    · subst hst
      simp [monitor_daily_run, monitor_daily_tick, ih hts]
    · simp [monitor_daily_run, monitor_daily_tick, hst, ht, ih hts]

/-- Over any run of ticks that never samples the `00:00` minute (so the
handled-today marker is never reset), the daily sequence fires at most
once, from any starting marker state. -/
theorem monitor_daily_run_le_one (st : String) :
    ∀ (ticks : List String) (handled : Bool), "00:00" ∉ ticks →
      (monitor_daily_run st ticks handled).1 ≤ 1 := by
  intro ticks
  induction ticks with
  | nil => intro handled _; simp [monitor_daily_run]
  | cons t ts ih =>
    intro handled hmem
    have hts : "00:00" ∉ ts := fun hx => hmem (List.mem_cons_of_mem _ hx)
    have ht : t ≠ "00:00" := fun hx => hmem (hx ▸ List.mem_cons_self _ _)
    by_cases hst : st = ""
    · simpa [monitor_daily_run, monitor_daily_tick, hst] using ih handled hts
    · by_cases hf : (t == st && !handled) = true
      · have htick : monitor_daily_tick t st handled = (true, true) := by
          simp [monitor_daily_tick, hst, hf, ht]
        simp [monitor_daily_run, htick, monitor_daily_run_handled st ts hts]
      · have hf' : (t == st && !handled) = false := by
          revert hf; cases (t == st && !handled) <;> simp
        have htick : monitor_daily_tick t st handled = (false, handled) := by
          simp [monitor_daily_tick, hst, hf', ht]
        simpa [monitor_daily_run, htick] using ih handled hts

/-- `commonComps xs ys` equals `xs` exactly when `xs` is a leading run of
`ys` — this is the component-wise containment `os.path.commonpath` encodes. -/
theorem commonComps_eq_self_iff (xs ys : List String) :
    (commonComps xs ys = xs) ↔ xs <+: ys := by
  induction xs generalizing ys with
  | nil => simp [commonComps]
  | cons x xs ih =>
    cases ys with
    | nil => simp [commonComps]
    | cons y ys =>
      by_cases hxy : x = y
      · subst hxy
        simp [commonComps, ih, List.cons_prefix_cons]
      · simp [commonComps, hxy, List.cons_prefix_cons]

/-- `_is_within_path` holds exactly when the install root's components are a
leading run of the candidate's components. -/
theorem is_within_path_iff (base cand : String) :
    is_within_path base cand = true ↔ pathComps base <+: pathComps cand := by
  simp [is_within_path, commonComps_eq_self_iff]

/-- Assigning a key that is absent from an association-list dict appends it. -/
theorem dictAssign_not_found (tbl : List (String × Nat)) (k : String) (v : Nat)
    (h : dictFind tbl k = none) :
    dictAssign tbl k v = tbl ++ [(k, v)] := by
  unfold dictFind at h
  cases hf : tbl.find? (fun e => e.1 == k) with
  | none => simp [dictAssign, hf]
  | some e => simp [hf] at h

/-- Appending an entry with a different key preserves key absence. -/
theorem dictFind_append_single (tbl : List (String × Nat)) (k k' : String) (v : Nat)
    (h : dictFind tbl k' = none) (hk : k ≠ k') :
    dictFind (tbl ++ [(k, v)]) k' = none := by
  unfold dictFind at h ⊢
  rw [List.find?_append]
  cases hf : tbl.find? (fun e => e.1 == k') with
  | some e => simp [hf] at h
  | none => simp [hf, hk]

/-- The recovery loop, folded over a key-unique cache whose names are all
absent from the starting table, appends exactly the entries satisfying the
adoption condition and logs one record per cache entry. -/
theorem recover_foldl (probe : Nat → ProcProbe) (declared : List String) :
    ∀ (cache tbl : List (String × Nat)) (log : List LogEntry),
      (cache.map Prod.fst).Nodup →
      (∀ e ∈ cache, dictFind tbl e.1 = none) →
      cache.foldl (recoverStep probe declared) (tbl, log) =
        (tbl ++ cache.filter (adoptsEntry probe declared),
         log ++ cache.map (recoveryLog probe declared)) := by
  intro cache
  induction cache with
  | nil => intro tbl log _ _; simp
  | cons e rest ih =>
    intro tbl log hnodup hfind
    rw [List.map_cons] at hnodup
    have hne : e.1 ∉ rest.map Prod.fst := (List.nodup_cons.mp hnodup).1
    have hnd : (rest.map Prod.fst).Nodup := (List.nodup_cons.mp hnodup).2
    have hfindr : ∀ e' ∈ rest, dictFind tbl e'.1 = none :=
      fun e' he' => hfind e' (List.mem_cons_of_mem _ he')
    rw [List.foldl_cons]
    rcases hp : probe e.2 with _ | _ | m
    · by_cases hd : e.1 ∈ declared
      · have hstep : recoverStep probe declared (tbl, log) e =
            (tbl ++ [(e.1, e.2)],
             log ++ [⟨"recovery", e.1, "success", "PID " ++ toString e.2⟩]) := by
          simp [recoverStep, hp, hd,
                dictAssign_not_found tbl e.1 e.2 (hfind e (List.mem_cons_self _ _))]
        rw [hstep, ih]
        · have hadopt : adoptsEntry probe declared e = true := by
            simp [adoptsEntry, hp, hd]
          rw [List.filter_cons_of_pos hadopt]
          simp [recoveryLog, hp, hd]
        · exact hnd
        · intro e' he'
          refine dictFind_append_single tbl e.1 e'.1 e.2 (hfindr e' he') ?_
          intro hEq
          exact hne (hEq ▸ (List.mem_map.mpr ⟨e', he', rfl⟩))
      · have hstep : recoverStep probe declared (tbl, log) e =
            (tbl, log ++ [⟨"recovery", e.1, "failed",
                           "Ungültiger Prozess " ++ toString e.2⟩]) := by
          simp [recoverStep, hp, hd]
        rw [hstep, ih tbl _ hnd hfindr]
        have hadopt : adoptsEntry probe declared e = false := by
          simp [adoptsEntry, hp, hd]
        rw [List.filter_cons_of_neg (by simp [hadopt])]
        simp [recoveryLog, hp, hd]
    · have hstep : recoverStep probe declared (tbl, log) e =
          (tbl, log ++ [⟨"recovery", e.1, "failed",
                         "Ungültiger Prozess " ++ toString e.2⟩]) := by
        simp [recoverStep, hp]
      rw [hstep, ih tbl _ hnd hfindr]
      have hadopt : adoptsEntry probe declared e = false := by
        simp [adoptsEntry, hp]
      rw [List.filter_cons_of_neg (by simp [hadopt])]
      simp [recoveryLog, hp]
    · have hstep : recoverStep probe declared (tbl, log) e =
          (tbl, log ++ [⟨"recovery", e.1, "failed",
                         "Prozess nicht übernommen: " ++ m⟩]) := by
        simp [recoverStep, hp]
      rw [hstep, ih tbl _ hnd hfindr]
      have hadopt : adoptsEntry probe declared e = false := by
        simp [adoptsEntry, hp]
      rw [List.filter_cons_of_neg (by simp [hadopt])]
      simp [recoveryLog, hp]

/-!  # Claim theorems -/

/-- C1 (counterexample): for a fresh server name, the sequence
`begin(n)`, `begin(n)`, `end_failed(n, "e")`, `end_success(n)` does NOT
leave `status(n) = ("failed", "e")` as the claim states — the final
`end_success` brings `busy_count` to 0 and thereby clears the recorded
failure, so the status is `(None, None)`. -/
theorem C1_counterexample :
    (get_operation_status "n" 1
      (end_operation_success "n"
        (end_operation_failed "n" "e" 1
          (begin_operation "n" "" (begin_operation "n" "" statusEmpty))))).1
      = (none, none) ∧
    (get_operation_status "n" 1
      (end_operation_success "n"
        (end_operation_failed "n" "e" 1
          (begin_operation "n" "" (begin_operation "n" "" statusEmpty))))).1
      ≠ (some "failed", some "e") := by decide

/-- C1 (amended): for every server name `n` with no prior record, after
`begin(n)`, `begin(n)`, `end_failed(n, msg)`, `end_success(n)` the status
query reports `(None, None)` at every query time: `end_operation_success`
decrements `busy_count` to 0 and, on reaching 0, clears the failure that
the nested `end_operation_failed` had recorded. -/
theorem C1_nested_end_success_clears_failure (n msg : String) (tf tq : Nat)
    (tbl : StatusTable) (h : tbl n = none) :
    (get_operation_status n tq
      (end_operation_success n
        (end_operation_failed n msg tf
          (begin_operation n "" (begin_operation n "" tbl))))).1 = (none, none) := by
  simp [begin_operation, end_operation_failed, end_operation_success,
        get_operation_status, statusSet, h, OpState.init]

/-- C1 (witness): the amended theorem applied at the concrete name
`"alpha"`, failure time 5 and query time 5 on the empty table. -/
theorem C1_witness :
    statusEmpty "alpha" = none ∧
    (get_operation_status "alpha" 5
      (end_operation_success "alpha"
        (end_operation_failed "alpha" "e" 5
          (begin_operation "alpha" "" (begin_operation "alpha" "" statusEmpty))))).1
      = (none, none) :=
  ⟨rfl, C1_nested_end_success_clears_failure "alpha" "e" 5 5 statusEmpty rfl⟩

/-- C2: when the per-server update lock is already held, `run_update`
returns `(False, "Update läuft bereits")` (“update already running”)
immediately and performs no external tool invocation; an overlapping pair
of calls — the first holding the lock with a configured app id and a
resolvable SteamCMD, the second observing the held lock — performs exactly
one external tool invocation in total. -/
theorem C2_update_single_flight (w1 w2 : UpdateWorld) (p a : String)
    (h2 : w2.lock_held = true)
    (h1 : w1.lock_held = false)
    (ha : w1.app_id = some a)
    (hs : resolvedSteamcmd w1 = Except.ok p) :
    (run_update w2).1 = (false, "Update läuft bereits") ∧
    (run_update w2).2 = 0 ∧
    (run_update w1).2 = 1 ∧
    (run_update w1).2 + (run_update w2).2 = 1 := by
  have hw2 : run_update w2 = ((false, "Update läuft bereits"), 0) := by
    simp [run_update, h2]
  have hw1 : (run_update w1).2 = 1 := by
    simp [run_update, h1, ha, hs]
    cases w1.tool with
    | timedOut => simp
    | finished rc out =>
      by_cases hrc : rc = 0 <;> simp [hrc] <;> split_ifs <;> rfl
  simp [hw2, hw1]

/-- C2 (witness): the theorem applied to a concrete overlapping pair of
update worlds. -/
theorem C2_witness :
    (⟨true, some "730", some "/steam/steamcmd", true, "", none,
       ToolOutcome.finished 0 "ok", true, "3.14"⟩ : UpdateWorld).lock_held = true ∧
    (⟨false, some "730", some "/steam/steamcmd", true, "", none,
       ToolOutcome.finished 0 "ok", true, "3.14"⟩ : UpdateWorld).lock_held = false ∧
    (run_update ⟨true, some "730", some "/steam/steamcmd", true, "", none,
       ToolOutcome.finished 0 "ok", true, "3.14"⟩).1 = (false, "Update läuft bereits") :=
  ⟨rfl, rfl,
   (C2_update_single_flight
      ⟨false, some "730", some "/steam/steamcmd", true, "", none,
        ToolOutcome.finished 0 "ok", true, "3.14"⟩
      ⟨true, some "730", some "/steam/steamcmd", true, "", none,
        ToolOutcome.finished 0 "ok", true, "3.14"⟩
      "/steam/steamcmd" "730" rfl rfl rfl rfl).1⟩

/-- C3 (counterexample): for `stop_time = "00:00"` the claim fails — two
monitor ticks sampling the `00:00` minute of the same calendar day fire the
daily stop/update/restart sequence twice, because the midnight reset in the
same loop iteration immediately removes the server from the handled-today
set again. -/
theorem C3_counterexample :
    (monitor_daily_run "00:00" ["00:00", "00:00"] false).1 = 2 ∧
    ¬ ((monitor_daily_run "00:00" ["00:00", "00:00"] false).1 ≤ 1) := by decide

/-- C3 (amended): for every server whose non-empty `stop_time` is not
`"00:00"`, the daily sequence fires at most once over any run of ticks that
does not sample the `00:00` minute — even if the `stop_time` minute is
sampled several times — and any tick at `00:00` re-arms the marker (leaves
the server outside the handled-today set) for the next day. -/
theorem C3_daily_stop_at_most_once (st : String) (ticks : List String)
    (handled : Bool) (hst : st ≠ "") (hmid : st ≠ "00:00")
    (hticks : "00:00" ∉ ticks) :
    (monitor_daily_run st ticks handled).1 ≤ 1 ∧
    (∀ h2 : Bool, (monitor_daily_tick "00:00" st h2).2 = false) := by
  refine ⟨monitor_daily_run_le_one st ticks handled hticks, ?_⟩
  intro h2
  simp [monitor_daily_tick, hst]

/-- C3 (witness): the amended theorem at `stop_time = "05:00"` with the
`05:00` minute sampled twice. -/
theorem C3_witness :
    ("05:00" : String) ≠ "" ∧ ("05:00" : String) ≠ "00:00" ∧
    "00:00" ∉ ["05:00", "05:00"] ∧
    (monitor_daily_run "05:00" ["05:00", "05:00"] false).1 ≤ 1 :=
  ⟨by decide, by decide, by decide,
   (C3_daily_stop_at_most_once "05:00" ["05:00", "05:00"] false
      (by decide) (by decide) (by decide)).1⟩

/-- C4: when `stop_server` reaches the verification step (a path exists,
something was tracked or discovered, no exception) and any process survives
— a re-scan hit under the install root or the tracked main process still
running — the stop reports failure with the "N Prozesse übrig"
(N processes remaining) reason, the live-process entry is not removed and
the PID cache is not rewritten; and, for every possible world, the entry
removal and PID-cache rewrite happen only on the success path. -/
theorem C4_stop_survivors_report_failure (w : StopWorld) (b : String)
    (hbase : w.base = some b)
    (hguard : ¬ (w.tracked = none ∧ w.relatedBefore = []))
    (hkill : w.killError = none)
    (hstill : stopStill w ≠ []) :
    stop_server w =
      ⟨false, toString (stopStill w).length ++ " Prozesse übrig", false, false⟩ ∧
    (∀ w' : StopWorld,
      ((stop_server w').entryRemoved || (stop_server w').pidCacheSaved) = true →
        (stop_server w').ok = true) := by
  constructor
  · simp [stop_server, hbase, hguard, hkill, hstill]
  · intro w' h
    rcases hb : w'.base with _ | bb
    · simp [stop_server, hb] at h
    · by_cases hg : w'.tracked = none ∧ w'.relatedBefore = []
      · simp [stop_server, hb, hg] at h
      · rcases hk : w'.killError with _ | e
        · by_cases hsw : stopStill w' = []
          · simp [stop_server, hb, hg, hk, hsw]
          · simp [stop_server, hb, hg, hk, hsw] at h
        · simp [stop_server, hb, hg, hk] at h

/-- C4 (witness): a world where one related process was killed
(`101 ∈ relatedBefore` but not among the survivors) yet one discovered
survivor and the still-running tracked process remain — the stop fails with
"2 Prozesse übrig" and performs no removal or cache write. -/
theorem C4_witness :
    (⟨some "/srv/s1", some 100, true, [101, 102], none, [102], true⟩ :
        StopWorld).base = some "/srv/s1" ∧
    stopStill ⟨some "/srv/s1", some 100, true, [101, 102], none, [102], true⟩ ≠ [] ∧
    stop_server ⟨some "/srv/s1", some 100, true, [101, 102], none, [102], true⟩ =
      ⟨false,
       toString (stopStill
         (⟨some "/srv/s1", some 100, true, [101, 102], none, [102], true⟩ :
           StopWorld)).length ++ " Prozesse übrig",
       false, false⟩ :=
  ⟨rfl, by decide,
   (C4_stop_survivors_report_failure
      ⟨some "/srv/s1", some 100, true, [101, 102], none, [102], true⟩
      "/srv/s1" rfl (by decide) rfl (by decide)).1⟩

/-- C5 (counterexample): a failure recorded at `T = 1` and queried exactly
at `T + 900` still reports `("failed", "e")` — the source checks
`age <= FAILED_TTL_SECONDS`, so the boundary instant is inside the failed
window, contradicting the claim's "at or after T+900s reports
(None, None)". -/
theorem C5_counterexample :
    (get_operation_status "n" 901
      (end_operation_failed "n" "e" 1 (begin_operation "n" "stop" statusEmpty))).1
      = (some "failed", some "e") ∧
    (get_operation_status "n" 901
      (end_operation_failed "n" "e" 1 (begin_operation "n" "stop" statusEmpty))).1
      ≠ (none, none) := by decide

/-- C5 (amended): for a failure recorded at time `T > 0` (one operation
begun and ended failed, message non-blank after stripping) with no
intervening operation, `status(n)` reports `("failed", msg)` for every
query at or before `T + 900` and `(None, None)` for every query strictly
after `T + 900`. -/
theorem C5_failure_ttl_boundary (n lbl msg : String) (T q : Nat)
    (tbl : StatusTable) (h : tbl n = none) (hT : 0 < T)
    (hmsg : pyStrip msg ≠ "") :
    ((q ≤ T + FAILED_TTL_SECONDS →
       (get_operation_status n q
         (end_operation_failed n msg T (begin_operation n lbl tbl))).1
         = (some "failed", some (pyStrip msg))) ∧
     (T + FAILED_TTL_SECONDS < q →
       (get_operation_status n q
         (end_operation_failed n msg T (begin_operation n lbl tbl))).1
         = (none, none))) := by
  have hrec : (end_operation_failed n msg T (begin_operation n lbl tbl)) n
      = some ⟨0, "", T, pyStrip msg⟩ := by
    by_cases hl : lbl = "" <;>
      simp [begin_operation, end_operation_failed, statusSet, h, OpState.init, hl]
  constructor
  · intro hle
    have hage : q - T ≤ FAILED_TTL_SECONDS := by
      simp [FAILED_TTL_SECONDS] at hle ⊢; omega
    simp [get_operation_status, hrec, hT, hmsg, hage]
  · intro hgt
    have hage : ¬ (q - T ≤ FAILED_TTL_SECONDS) := by
      simp [FAILED_TTL_SECONDS] at hgt ⊢; omega
    simp [get_operation_status, hrec, hT, hmsg, hage]

/-- C5 (witness): the theorem at `T = 10` queried at `q = 200` (inside the
window) reports the failure. -/
theorem C5_witness :
    statusEmpty "alpha" = none ∧ (0 : Nat) < 10 ∧ pyStrip "boom" ≠ "" ∧
    (get_operation_status "alpha" 200
      (end_operation_failed "alpha" "boom" 10
        (begin_operation "alpha" "stop" statusEmpty))).1
      = (some "failed", some (pyStrip "boom")) :=
  ⟨rfl, by decide, by decide,
   (C5_failure_ttl_boundary "alpha" "stop" "boom" 10 200 statusEmpty rfl
      (by decide) (by decide)).1 (by decide)⟩

/-- C6: a process is classified as related to an install root only if its
executable path or its working directory (normalized, absolute) has the
root's components as a leading run — a true path-component containment;
in particular the sibling `/srv/app-10/bin/x` is NOT within root
`/srv/app-1` although the root is a string prefix of it, while
`/srv/app-1/bin/x` is. -/
theorem C6_path_containment (root : String) (procs : List ProcInfo) (pid : Nat)
    (hmem : pid ∈ list_server_related_processes root procs) :
    (∃ p ∈ procs, p.pid = pid ∧
      ((p.exe ≠ "" ∧ pathComps root <+: pathComps p.exe) ∨
       (p.cwd ≠ "" ∧ pathComps root <+: pathComps p.cwd))) ∧
    is_within_path "/srv/app-1" "/srv/app-10/bin/x" = false ∧
    is_within_path "/srv/app-1" "/srv/app-1/bin/x" = true := by
  refine ⟨?_, by decide, by decide⟩
  rw [list_server_related_processes, List.mem_dedup] at hmem
  rcases List.mem_map.mp hmem with ⟨p, hp, hpid⟩
  rcases List.mem_filter.mp hp with ⟨hpl, hrel⟩
  refine ⟨p, hpl, hpid, ?_⟩
  rw [relatedToServer, Bool.or_eq_true, Bool.and_eq_true, Bool.and_eq_true] at hrel
  rcases hrel with ⟨he, hw⟩ | ⟨hc, hw⟩
  · exact Or.inl ⟨by simpa using he, (is_within_path_iff _ _).mp hw⟩
  · exact Or.inr ⟨by simpa using hc, (is_within_path_iff _ _).mp hw⟩

/-- C6 (witness): process 8 with executable under `/srv/app-1` is related;
the theorem applied to the snapshot also containing the `/srv/app-10`
sibling process 7, which the related list excludes. -/
theorem C6_witness :
    8 ∈ list_server_related_processes "/srv/app-1"
        [⟨8, "/srv/app-1/bin/x", ""⟩, ⟨7, "/srv/app-10/bin/x", ""⟩] ∧
    7 ∉ list_server_related_processes "/srv/app-1"
        [⟨8, "/srv/app-1/bin/x", ""⟩, ⟨7, "/srv/app-10/bin/x", ""⟩] ∧
    ((∃ p ∈ ([⟨8, "/srv/app-1/bin/x", ""⟩, ⟨7, "/srv/app-10/bin/x", ""⟩] :
          List ProcInfo), p.pid = 8 ∧
        ((p.exe ≠ "" ∧ pathComps "/srv/app-1" <+: pathComps p.exe) ∨
         (p.cwd ≠ "" ∧ pathComps "/srv/app-1" <+: pathComps p.cwd))) ∧
     is_within_path "/srv/app-1" "/srv/app-10/bin/x" = false ∧
     is_within_path "/srv/app-1" "/srv/app-1/bin/x" = true) :=
  ⟨by decide, by decide,
   C6_path_containment "/srv/app-1"
     [⟨8, "/srv/app-1/bin/x", ""⟩, ⟨7, "/srv/app-10/bin/x", ""⟩] 8 (by decide)⟩

/-- C7: writing the PID cache (which keeps exactly the entries whose process
`is_running()` at write time) and then running the Recovery Bootstrap on a
key-unique process table adopts into the (initially empty) live-process
table exactly those cached entries whose PID the OS reports alive and whose
name is currently declared; every cache entry yields exactly one log
record, non-adopted entries are logged with status "failed", and every log
record the recovery writes has action "recovery" (it never issues a start
or stop). -/
theorem C7_recovery_roundtrip (probe : Nat → ProcProbe) (declared : List String)
    (is_running_now : Nat → Bool) (processes : List (String × Nat))
    (hnodup : (processes.map Prod.fst).Nodup) :
    (recover_running_servers probe declared
        (save_pids is_running_now processes) []).1
      = (save_pids is_running_now processes).filter (adoptsEntry probe declared) ∧
    (recover_running_servers probe declared
        (save_pids is_running_now processes) []).2
      = (save_pids is_running_now processes).map (recoveryLog probe declared) ∧
    (∀ e : String × Nat, adoptsEntry probe declared e = false →
      (recoveryLog probe declared e).status = "failed") ∧
    (∀ entry ∈ (recover_running_servers probe declared
        (save_pids is_running_now processes) []).2,
      entry.action = "recovery") := by
  have hsub : ((save_pids is_running_now processes).map Prod.fst).Sublist
      (processes.map Prod.fst) := (List.filter_sublist _).map _
  have hnd : ((save_pids is_running_now processes).map Prod.fst).Nodup :=
    hnodup.sublist hsub
  have hmain := recover_foldl probe declared (save_pids is_running_now processes)
    [] [] hnd (by intro e _; rfl)
  unfold recover_running_servers
  rw [hmain]
  refine ⟨by simp, by simp, ?_, ?_⟩
  · intro e had
    rcases hp : probe e.2 with _ | _ | m <;>
      simp [recoveryLog, adoptsEntry, hp] at had ⊢
    simp [had]
  · intro entry hmem
    simp only [List.nil_append] at hmem
    rcases List.mem_map.mp hmem with ⟨e, _, rfl⟩
    rcases hp : probe e.2 with _ | _ | m <;> simp [recoveryLog, hp]
    by_cases hd : e.1 ∈ declared <;> simp [hd]

/-- C7 (witness): cache written from processes a(3), b(4), c(5), x(9) with
9 dead at write time; at recovery 3 and 5 are alive but only "a" and "b"
are declared — exactly ("a", 3) is adopted. -/
theorem C7_witness :
    (([("a", 3), ("b", 4), ("c", 5), ("x", 9)] :
        List (String × Nat)).map Prod.fst).Nodup ∧
    (recover_running_servers
        (fun p => if p = 3 then ProcProbe.running
                  else if p = 5 then ProcProbe.running
                  else if p = 4 then ProcProbe.notRunning
                  else ProcProbe.raised "AccessDenied")
        ["a", "b"]
        (save_pids (fun p => p != 9) [("a", 3), ("b", 4), ("c", 5), ("x", 9)])
        []).1
      = (save_pids (fun p => p != 9) [("a", 3), ("b", 4), ("c", 5), ("x", 9)]).filter
          (adoptsEntry
            (fun p => if p = 3 then ProcProbe.running
                      else if p = 5 then ProcProbe.running
                      else if p = 4 then ProcProbe.notRunning
                      else ProcProbe.raised "AccessDenied")
            ["a", "b"]) :=
  ⟨by decide,
   (C7_recovery_roundtrip
      (fun p => if p = 3 then ProcProbe.running
                else if p = 5 then ProcProbe.running
                else if p = 4 then ProcProbe.notRunning
                else ProcProbe.raised "AccessDenied")
      ["a", "b"] (fun p => p != 9) [("a", 3), ("b", 4), ("c", 5), ("x", 9)]
      (by decide)).1⟩

/-- C8: `stop_server` with no tracked process and no discoverable related
process returns a failure — with reason "path not found" when the server
has no declared path at all, and "keine Prozesse gefunden" (no processes
found) when a path exists — never a success. -/
theorem C8_stop_nothing_found_fails (w : StopWorld)
    (htr : w.tracked = none) (hrel : w.relatedBefore = []) :
    (stop_server w).ok = false ∧
    (w.base = none → (stop_server w).fail_reason = "path not found") ∧
    (∀ b, w.base = some b →
      (stop_server w).fail_reason = "keine Prozesse gefunden") := by
  cases hb : w.base <;> simp [stop_server, hb, htr, hrel]

/-- C8 (witness): a configured server with nothing tracked and nothing
discovered fails its stop. -/
theorem C8_witness :
    (⟨some "/srv/s1", none, true, [], none, [], false⟩ : StopWorld).tracked
      = none ∧
    (⟨some "/srv/s1", none, true, [], none, [], false⟩ : StopWorld).relatedBefore
      = [] ∧
    (stop_server ⟨some "/srv/s1", none, true, [], none, [], false⟩).ok = false :=
  ⟨rfl, rfl,
   (C8_stop_nothing_found_fails
      ⟨some "/srv/s1", none, true, [], none, [], false⟩ rfl rfl).1⟩

/-- C9: the crash-watch body for a server whose tracked process is observed
dead and whose configuration has no `auto_restart` key removes the entry
and invokes `start`: `cfg.get("auto_restart", True)` defaults to enabled
when the key is absent. -/
theorem C9_auto_restart_default_true :
    crash_watch_step false none = (true, true) := by decide

/-- C10: `end_operation_failed` on a name with no status record creates the
record with `busy_count` floored at 0 so a status query at the failure time
reports `("failed", msg)`, while `end_operation_success` on a name with no
record is a no-op and the status stays `(None, None)`. -/
theorem C10_end_failed_creates_record (n msg : String) (T : Nat)
    (tbl : StatusTable) (h : tbl n = none) (hT : 0 < T)
    (hmsg : pyStrip msg ≠ "") :
    (end_operation_failed n msg T tbl) n = some ⟨0, "", T, pyStrip msg⟩ ∧
    (get_operation_status n T (end_operation_failed n msg T tbl)).1
      = (some "failed", some (pyStrip msg)) ∧
    end_operation_success n tbl = tbl ∧
    (get_operation_status n T (end_operation_success n tbl)).1 = (none, none) := by
  refine ⟨?_, ?_, ?_, ?_⟩
  · simp [end_operation_failed, statusSet, h, OpState.init]
  · simp [end_operation_failed, get_operation_status, statusSet, h,
          OpState.init, hT, hmsg]
  · simp [end_operation_success, h]
  · simp [end_operation_success, get_operation_status, h]

/-- C10 (witness): the theorem at name `"alpha"`, message `"boom"`,
time 5 on the empty table. -/
theorem C10_witness :
    statusEmpty "alpha" = none ∧ (0 : Nat) < 5 ∧ pyStrip "boom" ≠ "" ∧
    (end_operation_failed "alpha" "boom" 5 statusEmpty) "alpha"
      = some ⟨0, "", 5, pyStrip "boom"⟩ :=
  ⟨rfl, by decide, by decide,
   (C10_end_failed_creates_record "alpha" "boom" 5 statusEmpty rfl
      (by decide) (by decide)).1⟩
